import Mathlib

/-!
Verification of the FAI match-lifecycle orchestrator.

The Python source is shallowly embedded: every mutable handler becomes a pure
function from the loaded database state (slot row plus the two player rows) to
the state it commits.  Strings are processed over their character lists with
structural recursion, mirroring the Python string primitives used by the code
(all separators in the source are single characters), so that every definition
evaluates inside the kernel.
-/

namespace FAI

instance exceptDecEq {ε α : Type} [DecidableEq ε] [DecidableEq α] :
    DecidableEq (Except ε α)
  | .ok x, .ok y =>
    if h : x = y then .isTrue (congrArg Except.ok h)
    else .isFalse (fun hc => h (Except.ok.inj hc))
  | .error x, .error y =>
    if h : x = y then .isTrue (congrArg Except.error h)
    else .isFalse (fun hc => h (Except.error.inj hc))
  | .ok _, .error _ => .isFalse (fun hc => Except.noConfusion hc)
  | .error _, .ok _ => .isFalse (fun hc => Except.noConfusion hc)

/-! ## Python string primitives over character lists -/

/-- Python str.split(sep) for a single-character separator:
splitting the empty string yields [""], and separators at the ends yield
empty segments, exactly as in Python. -/
def splitOnChar (c : Char) : List Char → List (List Char)
  | [] => [[]]
  | x :: xs =>
    if x = c then [] :: splitOnChar c xs
    else
      match splitOnChar c xs with
      | [] => [[x]]
      | g :: gs => (x :: g) :: gs

/-- Characters removed by Python str.strip() with no arguments. -/
def isPySpace (c : Char) : Bool :=
  c = ' ' || c = '\t' || c = '\n' || c = '\r' || c = '\x0b' || c = '\x0c'

/-- Python str.strip(): drop leading and trailing whitespace. -/
def pyStrip (l : List Char) : List Char :=
  ((l.dropWhile isPySpace).reverse.dropWhile isPySpace).reverse

/-- Python str.rstrip(ch) for a single character. -/
def pyRstrip (c : Char) (l : List Char) : List Char :=
  (l.reverse.dropWhile (fun x => x = c)).reverse

/-- Python sep.join(parts) for a single-character separator. -/
def pyJoin (sep : Char) : List (List Char) → List Char
  | [] => []
  | [x] => x
  | x :: xs => x ++ sep :: pyJoin sep xs

/-- Python substring containment (needle in hay): the needle is a prefix of
some suffix of the haystack (the empty needle is contained everywhere). -/
def pyContains (hay needle : List Char) : Bool :=
  match hay with
  | [] => needle.isEmpty
  | x :: t => needle.isPrefixOf (x :: t) || pyContains t needle

/-- Python truthiness of an optional string: None and "" are falsy. -/
def strTruthy : Option String → Bool
  | none => false
  | some s => s ≠ ""

/-! ## Data model (db/models.py) -/

inductive MatchStatus where
  | scheduled
  | confirmed
  | canceled
  | completed
deriving DecidableEq, Repr

/-- The User row fields touched by the match pipeline. -/
structure Player where
  id : Nat
  tgId : Nat
  fullName : String
  matchesPlayed : Nat
  matchesPlayedCycle : Nat
  declinesCount : Nat
  winsCount : Nat
  eliminated : Bool
  totalTranscriptionLength : Nat
deriving DecidableEq, Repr

structure Case where
  id : Nat
  content : String
deriving DecidableEq, Repr

structure Room where
  id : Nat
  roomUrl : String
deriving DecidableEq, Repr

/-- The RoomSlot row together with its loaded player / case / room relations,
as the handlers read it inside one session. -/
structure Slot where
  id : Nat
  startTime : Nat
  player1Id : Option Nat
  player2Id : Option Nat
  player1 : Option Player
  player2 : Option Player
  player1Confirmed : Bool
  player2Confirmed : Bool
  status : MatchStatus
  isOccupied : Bool
  elimination : Bool
  caseId : Option Nat
  case : Option Case
  transcription : Option String
  transcriptionProcessed : Bool
  firstIsWinner : Option Bool
  player1Analysis : String
  player2Analysis : String
  personalyzedCase : Option String
  room : Option Room
deriving DecidableEq, Repr

/-- The spec invariant of section 3: is_occupied is true iff both players
are assigned. -/
def occupied_iff_players (s : Slot) : Prop :=
  s.isOccupied = true ↔ (s.player1.isSome ∧ s.player2.isSome)

instance (s : Slot) : Decidable (occupied_iff_players s) := by
  unfold occupied_iff_players; infer_instance

/-! ## MatchResultService (app/core/matchmaking/service.py) -/

/-- calculate_player_text_length: collect the stripped remainders of lines
prefixed by "name:", join them with single spaces, strip, and count
characters. -/
def calculate_player_text_length (transcription playerName : String) : Nat :=
  let lines := splitOnChar '\n' transcription.data
  let pref := playerName.data ++ [':']
  let textStart := playerName.data.length + 1
  let playerText := lines.filterMap (fun line =>
    if pref.isPrefixOf line then
      if line.length > textStart then some (pyStrip (line.drop textStart))
      else none
    else none)
  (pyStrip (pyJoin ' ' playerText)).length

/-- The per-player analysis text: "\n".join(lines[1:3]) when the verdict has
more than one line, else "". -/
def analysis_lines (lines : List (List Char)) : String :=
  if lines.length > 1 then (pyJoin '\n' ((lines.drop 1).take 2)).asString else ""

/-- slot.case.content if slot.case else "". -/
def slot_case_context (slot : Slot) : String :=
  match slot.case with
  | some c => c.content
  | none => ""

/-- The transcription text process_slot analyses (non-empty past the guard). -/
def slot_transcript (slot : Slot) : String :=
  match slot.transcription with
  | some t => t
  | none => ""

/-- The name passed to calculate_player_text_length:
slot.playerN.full_name if slot.playerN else "". -/
def player_name : Option Player → String
  | some p => p.fullName
  | none => ""

/-- One branch condition of the verdict parse: the marker ("Игрок 1" or
"Игрок 2") occurs in the verdict line, or the player exists and their full
name occurs in it. -/
def verdict_names_player (verdictLine : List Char) (marker : String)
    (p : Option Player) : Bool :=
  pyContains verdictLine marker.data ||
    (match p with
     | some q => pyContains verdictLine q.fullName.data
     | none => false)

/-- The winner application block: increment the winner's wins and, in
elimination mode, eliminate the loser. -/
def apply_winner (elimination : Bool) (firstIsWinner : Option Bool)
    (p1 p2 : Option Player) : Option Player × Option Player :=
  match firstIsWinner with
  | some true =>
    match p1 with
    | some q => (some { q with winsCount := q.winsCount + 1 },
                 if elimination then p2.map (fun r => { r with eliminated := true }) else p2)
    | none => (p1, p2)
  | some false =>
    match p2 with
    | some q => (if elimination then p1.map (fun r => { r with eliminated := true }) else p1,
                 some { q with winsCount := q.winsCount + 1 })
    | none => (p1, p2)
  | none => (p1, p2)

/-- MatchResultService.process_slot, with the awaited analyzer passed as a
pure function from (transcription, case context) to the verdict text, and all
row mutations returned in the resulting slot (the player relations stand for
the player rows). -/
def process_slot (analyzer : String → String → String) (slot : Slot) : Slot :=
  if ¬ strTruthy slot.transcription then slot
  else if slot.transcriptionProcessed then slot
  else if slot.player1Id.isNone || slot.player2Id.isNone then slot
  else
    let transcript := slot_transcript slot
    let verdict := analyzer transcript (slot_case_context slot)
    let lines := splitOnChar '\n' verdict.data
    let verdictLine := lines.headD []
    let firstIsWinner1 :=
      if verdict_names_player verdictLine "Игрок 1" slot.player1 then some true
      else if verdict_names_player verdictLine "Игрок 2" slot.player2 then some false
      else slot.firstIsWinner
    let player1TextLength := calculate_player_text_length transcript (player_name slot.player1)
    let player2TextLength := calculate_player_text_length transcript (player_name slot.player2)
    let analysis := analysis_lines lines
    let p1 := slot.player1.map (fun p =>
      { p with totalTranscriptionLength := p.totalTranscriptionLength + player1TextLength })
    let p2 := slot.player2.map (fun p =>
      { p with totalTranscriptionLength := p.totalTranscriptionLength + player2TextLength })
    let firstIsWinner :=
      match firstIsWinner1 with
      | none => some (decide (player1TextLength < player2TextLength))
      | some b => some b
    let pw := apply_winner slot.elimination firstIsWinner p1 p2
    { slot with
        firstIsWinner := firstIsWinner,
        player1Analysis := analysis,
        player2Analysis := analysis,
        player1 := pw.1,
        player2 := pw.2,
        transcriptionProcessed := true }

/-- process_slot on a possibly-absent slot: the None guard at the top of the
Python function. -/
def process_slot_opt (analyzer : String → String → String) : Option Slot → Option Slot
  | none => none
  | some s => some (process_slot analyzer s)

/-! ## Confirmation handlers (bot/handlers/confirm.py) -/

/-- The database rows a confirmation handler commits: the slot row and the two
player rows it had loaded at entry. -/
structure DbOutcome where
  slot : Option Slot
  p1 : Option Player
  p2 : Option Player
deriving DecidableEq, Repr

/-- The unchanged outcome: the handler returned before mutating anything. -/
def DbOutcome.unchanged (slot : Slot) : DbOutcome :=
  ⟨some slot, slot.player1, slot.player2⟩

/-- handle_cancellation: eliminates the canceling player when the slot is in
elimination mode, then clears the slot's players, confirmation flags and
occupancy and cancels it. -/
def handle_cancellation (slot : Slot) (cancelingUserId : Nat) : DbOutcome :=
  let isPlayer1Canceling :=
    match slot.player1 with
    | some p => p.id == cancelingUserId
    | none => false
  let cancelingUser := if isPlayer1Canceling then slot.player1 else slot.player2
  let cancelingUser1 := cancelingUser.map (fun p =>
    if slot.elimination then { p with eliminated := true } else p)
  { slot := some { slot with
      player1Id := none, player2Id := none,
      player1 := none, player2 := none,
      player1Confirmed := false, player2Confirmed := false,
      status := .canceled, isOccupied := false },
    p1 := if isPlayer1Canceling then cancelingUser1 else slot.player1,
    p2 := if isPlayer1Canceling then slot.player2 else cancelingUser1 }

inductive ConfirmAction where
  | confirm
  | cant
deriving DecidableEq, Repr

/-- process_confirmation: the callback handler.  caseChoice stands for the
random active case the database returns to assign_case_to_slot (None when no
active case exists). -/
def process_confirmation (slotOpt : Option Slot) (userTgId : Nat)
    (action : ConfirmAction) (caseChoice : Option Case) : DbOutcome :=
  match slotOpt with
  | none => ⟨none, none, none⟩
  | some slot =>
    let isPlayer1 :=
      match slot.player1 with
      | some p => p.tgId == userTgId
      | none => false
    let isPlayer2 :=
      match slot.player2 with
      | some p => p.tgId == userTgId
      | none => false
    if ¬ (isPlayer1 || isPlayer2) then .unchanged slot
    else if slot.status ≠ .scheduled then .unchanged slot
    else
      match action with
      | .confirm =>
        let slot1 :=
          if isPlayer1 then { slot with player1Confirmed := true }
          else { slot with player2Confirmed := true }
        if slot1.player1Confirmed && slot1.player2Confirmed then
          let bump := fun (p : Player) =>
            { p with
                matchesPlayed := p.matchesPlayed + 1,
                matchesPlayedCycle :=
                  if slot1.elimination then p.matchesPlayedCycle + 1
                  else p.matchesPlayedCycle }
          let slot2 := { slot1 with
            player1 := slot1.player1.map bump,
            player2 := slot1.player2.map bump,
            caseId := match caseChoice with
                      | some c => some c.id
                      | none => slot1.caseId,
            status := .confirmed }
          ⟨some slot2, slot2.player1, slot2.player2⟩
        else ⟨some slot1, slot1.player1, slot1.player2⟩
      | .cant =>
        let currentUser := if isPlayer1 then slot.player1 else slot.player2
        handle_cancellation slot ((currentUser.map Player.id).getD 0)

/-- send_case_before_match, reduced to its fire-time decision: after the sleep
it reloads the slot and sends the personalized case only when the slot still
exists, still has status CONFIRMED, and carries a non-empty personalized case
(Python truthiness). -/
def send_case_before_match (snapAtFire : Option Slot) : Bool :=
  match snapAtFire with
  | none => false
  | some s =>
    if s.status ≠ .confirmed then false
    else strTruthy s.personalyzedCase

/-! ## AttendanceGuard (app/core/attendance/guard.py) -/

/-- AttendanceGuard._normalise: strip and lowercase. -/
def normalise (value : String) : String :=
  ((pyStrip value.data).map Char.toLower).asString

/-- AttendanceGuard._extract_room_id: None for a missing or empty URL, else
the last path segment with any query string removed. -/
def extract_room_id (roomUrl : Option String) : Option String :=
  match roomUrl with
  | none => none
  | some u =>
    if u = "" then none
    else some ((splitOnChar '?' ((splitOnChar '/' (pyRstrip '/' u.data)).getLastD [])).headD []).asString

/-- The room id the guard polls with, after the Python falsiness check
(None or "" both fail it). -/
def slot_room_id (slot : Slot) : Option String :=
  let roomId := match slot.room with
                | some r => extract_room_id (some r.roomUrl)
                | none => none
  match roomId with
  | some s => if s = "" then none else some s
  | none => none

structure AttendanceSnapshot where
  presentIds : List Nat
  missingUsers : List Player
deriving DecidableEq, Repr

/-- One provider poll: either the raised error or the reported participant
names. -/
abbrev PollResult := Except Unit (List String)

/-- AttendanceGuard._fetch_snapshot: without a usable room id both players are
missing and the provider is never called; otherwise a provider error
propagates, and a successful reply is intersected against the normalised
player names. -/
def fetch_snapshot (slot : Slot) (provider : PollResult) :
    Except Unit AttendanceSnapshot :=
  let users := [slot.player1, slot.player2].filterMap id
  match slot_room_id slot with
  | none => .ok ⟨[], users⟩
  | some _ =>
    match provider with
    | .error e => .error e
    | .ok participants =>
      let names := participants.map normalise
      let present := (users.filter (fun u => names.contains (normalise u.fullName))).map Player.id
      let missing := users.filter (fun u => ¬ names.contains (normalise u.fullName))
      .ok ⟨present, missing⟩

/-- The loop condition for marking presence: both player ids appear in one
snapshot (a missing id never does, as in Python where None is not in a set of
ints). -/
def both_present (slot : Slot) (snap : AttendanceSnapshot) : Bool :=
  (match slot.player1Id with
   | some i => snap.presentIds.contains i
   | none => false) &&
  (match slot.player2Id with
   | some i => snap.presentIds.contains i
   | none => false)

inductive AttendanceDecision where
  | present
  | noShow (missing : List Player)
deriving DecidableEq, Repr

/-- AttendanceGuard._monitor from slot start onward: polls is the list of
provider replies for the polls inside the grace window, finalPoll the reply
for the snapshot taken after the deadline.  An exception anywhere propagates
out of the monitor task. -/
def monitor_polls (slot : Slot) : List PollResult → PollResult →
    Except Unit AttendanceDecision
  | [], finalPoll =>
    match fetch_snapshot slot finalPoll with
    | .error e => .error e
    | .ok snap => .ok (.noShow snap.missingUsers)
  | p :: rest, finalPoll =>
    match fetch_snapshot slot p with
    | .error e => .error e
    | .ok snap =>
      if both_present slot snap then .ok .present
      else monitor_polls slot rest finalPoll

/-- AttendanceGuard._handle_no_show: cancel and free the slot unless it is
already CANCELED or COMPLETED, and increment every missing player's decline
count.  The slot's player references are not touched. -/
def handle_no_show (slot : Slot) (missingUsers : List Player) :
    Slot × List Player :=
  let slot1 :=
    if slot.status ≠ .canceled ∧ slot.status ≠ .completed then
      { slot with status := .canceled, isOccupied := false }
    else slot
  (slot1, missingUsers.map (fun u => { u with declinesCount := u.declinesCount + 1 }))

/-! ## MatchScheduler (app/core/scheduling/service.py) -/

/-- The sort key order used by schedule_matches: ascending
(matches_played, declines_count). -/
def playerLe (u v : Player) : Bool :=
  u.matchesPlayed < v.matchesPlayed ||
    (u.matchesPlayed == v.matchesPlayed && u.declinesCount ≤ v.declinesCount)

/-- Stable insertion into a sorted list: the incoming element goes before the
first element it compares le to (Python sorted keeps equal keys in input
order, which this reproduces for a total preorder). -/
def insertLe (le : α → α → Bool) (a : α) : List α → List α
  | [] => [a]
  | b :: bs => if le a b then a :: b :: bs else b :: insertLe le a bs

/-- Stable sort by le, the semantics of Python sorted(..., key=...). -/
def sortLe (le : α → α → Bool) : List α → List α
  | [] => []
  | a :: as => insertLe le a (sortLe le as)

/-- The pairing loop of schedule_matches: players two at a time against the
current round's slots in order, stopping when either runs out. -/
def pair_into_slots (elimination : Bool) :
    List Player → List Slot → List (Slot × Player × Player)
  | p :: q :: rest, s :: ss =>
    ({ s with
        player1Id := some p.id, player2Id := some q.id,
        player1 := some p, player2 := some q,
        status := .scheduled, isOccupied := true,
        elimination := elimination }, p, q)
      :: pair_into_slots elimination rest ss
  | _, _ => []

/-- The earliest start time among the available slots. -/
def first_slot_time (slots : List Slot) : Option Nat :=
  (slots.map Slot.startTime).min?

/-- The slots of the current round: exactly those starting at the earliest
start time. -/
def round_slots (slots : List Slot) : List Slot :=
  match first_slot_time slots with
  | none => []
  | some m => slots.filter (fun s => s.startTime = m)

/-- MatchScheduler.schedule_matches on the already-eligible users (registered,
not eliminated, with a chat id, no match that day) and the unoccupied slots of
the date: sort the users, restrict to the earliest round's slots, pair.
Returns the updated slots with their pairs and the scheduled count. -/
def schedule_matches (users : List Player) (slots : List Slot)
    (elimination : Bool) : List (Slot × Player × Player) × Nat :=
  if users.isEmpty then ([], 0)
  else if slots.isEmpty then ([], 0)
  else
    let freeUsers := sortLe playerLe users
    let pairs := pair_into_slots elimination freeUsers (round_slots slots)
    (pairs, pairs.length)

/-! ## CaseDispatchService (app/core/scheduling/case_dispatcher.py) -/

/-- CaseDispatchService._deliver, reduced to its delivery decision: the slot
is loaded once, when the task starts (before the sleep), and the case material
is sent unconditionally from that snapshot — the store's state at fire time is
a parameter only to show it is never consulted.  Returns the slot snapshot
delivered, or None when the task found no slot and skipped. -/
def case_dispatch_deliver (snapAtArm snapAtFire : Option Slot) : Option Slot :=
  match snapAtArm with
  | none => none
  | some s =>
    let _ := snapAtFire
    some s

/-- Modelled from the spec: the delivery decision section 4.3 describes — on
fire, reload the slot and deliver only if it is still in a deliverable
(CONFIRMED) state, silently skipping otherwise. -/
def case_dispatch_deliver_spec (snapAtArm snapAtFire : Option Slot) : Option Slot :=
  let _ := snapAtArm
  match snapAtFire with
  | none => none
  | some s => if s.status = .confirmed then some s else none

/-! ## GigaChatQueue (salute/giga.py) -/

def GIGACHAT_MAX_RETRIES : Nat := 3
def GIGACHAT_RETRY_DELAY : ℚ := 1
def GIGACHAT_MAX_RETRY_DELAY : ℚ := 10

/-- GigaChatQueue._get_retry_delay: exponential backoff with jitter, capped at
the maximum delay. -/
def get_retry_delay (retryCount : Nat) (jitter : ℚ) : ℚ :=
  min (GIGACHAT_RETRY_DELAY * 2 ^ retryCount + jitter) GIGACHAT_MAX_RETRY_DELAY

/-- The external endpoint, as the sequence of outcomes of successive calls:
call n is the outcome of the (n+1)-th request actually sent. -/
abbrev Endpoint := Nat → Except String String

/-- The for-loop of _make_gigachat_request_with_retry over the remaining
attempts: returns how many calls were made and the final outcome.  fuel is
the number of loop iterations left (MAX_RETRIES at entry); on the last
iteration the error is re-raised instead of retried. -/
def attempt_loop (call : Endpoint) (base : Nat) : Nat → Nat × Except String String
  | 0 => (0, .error "")
  | fuel + 1 =>
    match call base with
    | .ok r => (1, .ok r)
    | .error e =>
      if fuel = 0 then (1, .error e)
      else
        let (n, res) := attempt_loop call (base + 1) fuel
        (n + 1, res)

/-- GigaChatQueue._make_gigachat_request_with_retry: up to MAX_RETRIES calls
to the endpoint with backoff in between; the retry_count argument of the
Python function is unused by its loop. -/
def make_gigachat_request_with_retry (call : Endpoint) (base : Nat) :
    Nat × Except String String :=
  attempt_loop call base GIGACHAT_MAX_RETRIES

/-- The _process_queue life of one request: each round runs
_make_gigachat_request_with_retry; on failure the request is re-queued with
retry_count + 1 while retry_count < MAX_RETRIES, otherwise the error is set on
the caller's future.  fuel bounds the rounds (MAX_RETRIES + 1 suffices). -/
def queue_rounds (call : Endpoint) (base retryCount : Nat) :
    Nat → Nat × Except String String
  | 0 => (0, .error "")
  | fuel + 1 =>
    let (n, res) := make_gigachat_request_with_retry call base
    match res with
    | .ok r => (n, .ok r)
    | .error e =>
      if retryCount < GIGACHAT_MAX_RETRIES then
        let (m, res2) := queue_rounds call (base + n) (retryCount + 1) fuel
        (n + m, res2)
      else (n, .error e)

/-- The full journey of one queued judgment request: total endpoint calls made
and the result delivered to the caller's future. -/
def process_request (call : Endpoint) : Nat × Except String String :=
  queue_rounds call 0 0 (GIGACHAT_MAX_RETRIES + 1)

/-! ## Concrete fixtures for witnesses and counterexamples -/

def playerA : Player := ⟨1, 11, "A", 0, 0, 0, 0, false, 0⟩

def playerB : Player := ⟨2, 22, "B", 0, 0, 0, 0, false, 0⟩

/-- A freshly paired slot: scheduled, occupied by players A and B, in
elimination mode, with the example transcript captured. -/
def exSlot : Slot :=
  { id := 5, startTime := 100,
    player1Id := some 1, player2Id := some 2,
    player1 := some playerA, player2 := some playerB,
    player1Confirmed := false, player2Confirmed := false,
    status := .scheduled, isOccupied := true, elimination := true,
    caseId := none, case := some ⟨9, "case"⟩,
    transcription := some "A: hi\nB: hello there friend",
    transcriptionProcessed := false, firstIsWinner := none,
    player1Analysis := "", player2Analysis := "",
    personalyzedCase := none, room := some ⟨3, "https://salute/room/77"⟩ }

def exPlayerOf (i : Nat) : Player := ⟨i, i * 10, "P", i, 0, 0, 0, false, 0⟩

def exEmptySlot (i t : Nat) : Slot :=
  { id := i, startTime := t,
    player1Id := none, player2Id := none, player1 := none, player2 := none,
    player1Confirmed := false, player2Confirmed := false,
    status := .scheduled, isOccupied := false, elimination := false,
    caseId := none, case := none, transcription := none,
    transcriptionProcessed := false, firstIsWinner := none,
    player1Analysis := "", player2Analysis := "", personalyzedCase := none,
    room := none }

def exFiveUsers : List Player :=
  [exPlayerOf 5, exPlayerOf 2, exPlayerOf 3, exPlayerOf 1, exPlayerOf 4]

def exThreeSlots : List Slot :=
  [exEmptySlot 1 100, exEmptySlot 2 100, exEmptySlot 3 100]

/-! ## Helper lemmas -/

theorem process_slot_early (g : String → String → String) (s : Slot)
    (h : ¬ strTruthy s.transcription = true ∨ s.transcriptionProcessed = true ∨
      (s.player1Id.isNone || s.player2Id.isNone) = true) :
    process_slot g s = s := by
  rcases h with h | h | h
  · simp [process_slot, h]
  · unfold process_slot
    by_cases h1 : strTruthy s.transcription = true
    · simp [h1, h]
    · simp [h1]
  · unfold process_slot
    by_cases h1 : strTruthy s.transcription = true
    · by_cases h2 : s.transcriptionProcessed = true
      · simp [h1, h2]
      · simp [h1, h2, h]
    · simp [h1]

theorem process_slot_marks_processed (g : String → String → String) (s : Slot) :
    (process_slot g s).transcriptionProcessed = true ∨
      (∀ g', process_slot g' s = s) := by
  by_cases h1 : strTruthy s.transcription = true
  · by_cases h2 : s.transcriptionProcessed = true
    · exact Or.inr (fun g' => process_slot_early g' s (Or.inr (Or.inl h2)))
    · by_cases h3 : (s.player1Id.isNone || s.player2Id.isNone) = true
      · exact Or.inr (fun g' => process_slot_early g' s (Or.inr (Or.inr h3)))
      · left
        unfold process_slot
        simp [h1, h2, h3]
  · exact Or.inr (fun g' => process_slot_early g' s (Or.inl (by simp [h1])))

theorem process_slot_keeps_transcription (g : String → String → String) (s : Slot) :
    (process_slot g s).transcription = s.transcription := by
  unfold process_slot
  by_cases h1 : strTruthy s.transcription = true
  · by_cases h2 : s.transcriptionProcessed = true
    · simp [h1, h2]
    · by_cases h3 : (s.player1Id.isNone || s.player2Id.isNone) = true
      · simp [h1, h2, h3]
      · simp [h1, h2, h3]
  · simp [h1]

/-- Fixture for C10: a slot forced past the process_slot guards (non-empty
transcript, unprocessed, both player ids set). -/
def with_processable (s : Slot) (t : String) (i j : Nat) : Slot :=
  { s with transcription := some t, transcriptionProcessed := false,
           player1Id := some i, player2Id := some j }

/-! ## Claim theorems -/

/-- C2: process_slot is idempotent: it returns its input unchanged when the
slot is absent, the transcript is absent (None or empty), the slot is already
processed, or either player id is null; and a second run on the output of a
first run (with any analyzer) changes nothing, so wins and speech lengths are
never double-counted. -/
theorem process_slot_idempotent (g g' : String → String → String) (s : Slot) :
    process_slot_opt g none = none
    ∧ process_slot g { s with transcription := none } = { s with transcription := none }
    ∧ process_slot g { s with transcription := some "" } = { s with transcription := some "" }
    ∧ process_slot g { s with transcriptionProcessed := true } = { s with transcriptionProcessed := true }
    ∧ process_slot g { s with player1Id := none } = { s with player1Id := none }
    ∧ process_slot g { s with player2Id := none } = { s with player2Id := none }
    ∧ process_slot g' (process_slot g s) = process_slot g s := by
  refine ⟨rfl, ?_, ?_, ?_, ?_, ?_, ?_⟩
  · exact process_slot_early g _ (Or.inl (by simp [strTruthy]))
  · exact process_slot_early g _ (Or.inl (by simp [strTruthy]))
  · exact process_slot_early g _ (Or.inr (Or.inl rfl))
  · exact process_slot_early g _ (Or.inr (Or.inr (by simp)))
  · exact process_slot_early g _ (Or.inr (Or.inr (by simp)))
  · rcases process_slot_marks_processed g s with h | h
    · exact process_slot_early g' _ (Or.inr (Or.inl h))
    · rw [h g, h g']

/-- C4: a confirmation callback processed when the slot's status is no longer
SCHEDULED (for instance after the invitation timeout canceled it) commits the
slot and both player rows exactly as it found them. -/
theorem stale_confirmation_is_noop (slot : Slot) (tg : Nat)
    (a : ConfirmAction) (c : Option Case) (h : slot.status ≠ .scheduled) :
    process_confirmation (some slot) tg a c = .unchanged slot := by
  unfold process_confirmation
  by_cases hp : (¬ ((match slot.player1 with
      | some p => p.tgId == tg
      | none => false) ||
     (match slot.player2 with
      | some p => p.tgId == tg
      | none => false)) = true)
  · simp only [if_pos hp]
  · simp only [if_neg hp, if_pos h]

/-- C4 witness: a canceled slot is left untouched by a late confirm from
player 1. -/
theorem stale_confirmation_is_noop_witness :
    ({ exSlot with status := .canceled } : Slot).status ≠ .scheduled
    ∧ process_confirmation (some { exSlot with status := .canceled }) 11 .confirm none =
        .unchanged { exSlot with status := .canceled } :=
  ⟨by decide, stale_confirmation_is_noop { exSlot with status := .canceled } 11 .confirm none (by decide)⟩

/-- C10: whenever process_slot gets past its guards, player2_analysis is set
to the same string as player1_analysis, namely lines 2-3 of the verdict
("\n".join(lines[1:3])), or "" when the verdict is a single line. -/
theorem analysis_identical_for_both_players (g : String → String → String)
    (s : Slot) (t : String) (i j : Nat) (ht : t ≠ "") :
    (process_slot g (with_processable s t i j)).player2Analysis =
      (process_slot g (with_processable s t i j)).player1Analysis
    ∧ (process_slot g (with_processable s t i j)).player1Analysis =
        analysis_lines (splitOnChar '\n' (g t (slot_case_context s)).data)
    ∧ (∀ lines : List (List Char), analysis_lines lines =
        if lines.length > 1 then (pyJoin '\n' ((lines.drop 1).take 2)).asString else "") := by
  refine ⟨?_, ?_, fun _ => rfl⟩
  · unfold process_slot
    simp [with_processable, strTruthy, ht]
  · unfold process_slot
    simp [with_processable, strTruthy, ht, slot_transcript, slot_case_context]

/-- C10 witness: both analyses agree on the concrete example slot. -/
theorem analysis_identical_for_both_players_witness :
    ("v1\nv2\nv3\nv4" : String) ≠ ""
    ∧ ((process_slot (fun _ _ => "v1\nv2\nv3\nv4") (with_processable exSlot "A: hi" 1 2)).player2Analysis =
        (process_slot (fun _ _ => "v1\nv2\nv3\nv4") (with_processable exSlot "A: hi" 1 2)).player1Analysis
      ∧ (process_slot (fun _ _ => "v1\nv2\nv3\nv4") (with_processable exSlot "A: hi" 1 2)).player1Analysis =
          analysis_lines (splitOnChar '\n' ((fun (_ _ : String) => ("v1\nv2\nv3\nv4" : String)) "A: hi" (slot_case_context exSlot)).data)
      ∧ (∀ lines : List (List Char), analysis_lines lines =
          if lines.length > 1 then (pyJoin '\n' ((lines.drop 1).take 2)).asString else "")) :=
  ⟨by decide, analysis_identical_for_both_players (fun _ _ => "v1\nv2\nv3\nv4") exSlot "A: hi" 1 2 (by decide)⟩

/-- C3 counterexample: in the spec's concrete example the name-stripped
length of player B's line "hello there friend" is 18, not the 17 the claim
states. -/
theorem heuristic_length_is_eighteen :
    calculate_player_text_length "A: hi\nB: hello there friend" "B" = 18
    ∧ (18 : Nat) ≠ 17 := by
  exact ⟨by decide, by decide⟩

/-- C3 amended: when the verdict's first line names no explicit winner, the
fallback compares the code's per-player text lengths (the length of the
space-joined stripped remainders of that player's lines, which for a single
line equals the stripped remainder's length); player 1 wins exactly when
strictly shorter, so a tie or a longer player 1 resolves to player 2; on the
concrete transcript the lengths are 2 and 18 and A wins. -/
theorem fallback_winner_by_text_length (g : String → String → String) (s : Slot)
    (h1 : strTruthy s.transcription = true)
    (h2 : s.transcriptionProcessed = false)
    (h3 : s.player1Id.isSome) (h4 : s.player2Id.isSome)
    (hfw : s.firstIsWinner = none)
    (hv1 : verdict_names_player
      ((splitOnChar '\n' ((g (slot_transcript s) (slot_case_context s)).data)).headD [])
      "Игрок 1" s.player1 = false)
    (hv2 : verdict_names_player
      ((splitOnChar '\n' ((g (slot_transcript s) (slot_case_context s)).data)).headD [])
      "Игрок 2" s.player2 = false) :
    (process_slot g s).firstIsWinner =
      some (decide (calculate_player_text_length (slot_transcript s) (player_name s.player1) <
                    calculate_player_text_length (slot_transcript s) (player_name s.player2)))
    ∧ (calculate_player_text_length (slot_transcript s) (player_name s.player2) ≤
         calculate_player_text_length (slot_transcript s) (player_name s.player1) →
       (process_slot g s).firstIsWinner = some false)
    ∧ calculate_player_text_length "A: hi\nB: hello there friend" "A" = 2
    ∧ calculate_player_text_length "A: hi\nB: hello there friend" "B" = 18
    ∧ (process_slot (fun _ _ => "Ничья") exSlot).firstIsWinner = some true := by
  have hmain : (process_slot g s).firstIsWinner =
      some (decide (calculate_player_text_length (slot_transcript s) (player_name s.player1) <
                    calculate_player_text_length (slot_transcript s) (player_name s.player2))) := by
    unfold process_slot
    simp only [List.headD_eq_head?_getD] at hv1 hv2
    simp [h1, h2, Option.isNone_iff_eq_none, hv1, hv2, hfw,
      Option.ne_none_iff_isSome.2 h3, Option.ne_none_iff_isSome.2 h4]
  refine ⟨hmain, ?_, by decide, by decide, by decide⟩
  intro hle
  rw [hmain]
  simp [Nat.not_lt.2 hle]

/-- C3 witness: the fallback rule applied to the concrete example slot with a
verdict naming nobody. -/
theorem fallback_winner_by_text_length_witness :
    (strTruthy exSlot.transcription = true
      ∧ exSlot.transcriptionProcessed = false
      ∧ exSlot.player1Id.isSome ∧ exSlot.player2Id.isSome
      ∧ exSlot.firstIsWinner = none
      ∧ verdict_names_player
          ((splitOnChar '\n' (((fun (_ _ : String) => ("Ничья" : String))
            (slot_transcript exSlot) (slot_case_context exSlot)).data)).headD [])
          "Игрок 1" exSlot.player1 = false
      ∧ verdict_names_player
          ((splitOnChar '\n' (((fun (_ _ : String) => ("Ничья" : String))
            (slot_transcript exSlot) (slot_case_context exSlot)).data)).headD [])
          "Игрок 2" exSlot.player2 = false)
    ∧ (process_slot (fun _ _ => "Ничья") exSlot).firstIsWinner =
        some (decide (calculate_player_text_length (slot_transcript exSlot) (player_name exSlot.player1) <
                      calculate_player_text_length (slot_transcript exSlot) (player_name exSlot.player2))) :=
  ⟨⟨by decide, by decide, by decide, by decide, by decide, by decide, by decide⟩,
    (fallback_winner_by_text_length (fun _ _ => "Ничья") exSlot (by decide) (by decide)
      (by decide) (by decide) (by decide) (by decide) (by decide)).1⟩

theorem mem_insertLe {le : α → α → Bool} (a x : α) :
    ∀ (l : List α), x ∈ insertLe le a l ↔ x = a ∨ x ∈ l
  | [] => by simp [insertLe]
  | b :: bs => by
    unfold insertLe
    by_cases hab : le a b
    · simp [hab]
    · simp only [if_neg hab, List.mem_cons, mem_insertLe a x bs]
      tauto

theorem pairwise_insertLe {le : α → α → Bool}
    (hTrans : ∀ a b c, le a b = true → le b c = true → le a c = true)
    (hTotal : ∀ a b, le a b || le b a) (a : α) :
    ∀ (l : List α), l.Pairwise (fun x y => le x y = true) →
      (insertLe le a l).Pairwise (fun x y => le x y = true)
  | [], _ => by simp [insertLe]
  | b :: bs, h => by
    rcases List.pairwise_cons.1 h with ⟨hb, hbs⟩
    unfold insertLe
    by_cases hab : le a b = true
    · rw [if_pos hab]
      refine List.pairwise_cons.2 ⟨?_, h⟩
      intro y hy
      rcases List.mem_cons.1 hy with rfl | hy
      · exact hab
      · exact hTrans a b y hab (hb y hy)
    · rw [if_neg hab]
      refine List.pairwise_cons.2 ⟨?_, pairwise_insertLe hTrans hTotal a bs hbs⟩
      intro y hy
      rcases (mem_insertLe a y bs).1 hy with h' | hy
      · have h2 := hTotal a b
        simp [hab] at h2
        rw [h']
        exact h2
      · exact hb y hy

theorem pairwise_sortLe {le : α → α → Bool}
    (hTrans : ∀ a b c, le a b = true → le b c = true → le a c = true)
    (hTotal : ∀ a b, le a b || le b a) :
    ∀ (l : List α), (sortLe le l).Pairwise (fun x y => le x y = true)
  | [] => by simp [sortLe]
  | a :: as => pairwise_insertLe hTrans hTotal a _ (pairwise_sortLe hTrans hTotal as)

theorem length_insertLe {le : α → α → Bool} (a : α) :
    ∀ (l : List α), (insertLe le a l).length = l.length + 1
  | [] => rfl
  | b :: bs => by
    unfold insertLe
    by_cases hab : le a b
    · simp [hab]
    · simp [hab, length_insertLe a bs]

theorem length_sortLe {le : α → α → Bool} :
    ∀ (l : List α), (sortLe le l).length = l.length
  | [] => rfl
  | a :: as => by
    unfold sortLe
    rw [length_insertLe, length_sortLe as, List.length_cons]

theorem playerLe_trans (a b c : Player) :
    playerLe a b = true → playerLe b c = true → playerLe a c = true := by
  simp only [playerLe, Bool.or_eq_true, Bool.and_eq_true, decide_eq_true_eq, beq_iff_eq]
  omega

theorem playerLe_total (a b : Player) : playerLe a b || playerLe b a := by
  simp only [playerLe, Bool.or_eq_true, Bool.and_eq_true, decide_eq_true_eq, beq_iff_eq]
  omega

theorem length_pair_into_slots (e : Bool) :
    ∀ (ps : List Player) (ss : List Slot),
      (pair_into_slots e ps ss).length = min (ps.length / 2) ss.length
  | [], ss => by simp [pair_into_slots]
  | [p], ss => by simp [pair_into_slots]
  | p :: q :: rest, [] => by simp [pair_into_slots]
  | p :: q :: rest, s :: ss => by
    unfold pair_into_slots
    rw [List.length_cons, length_pair_into_slots e rest ss]
    simp only [List.length_cons]
    omega

theorem mem_pair_into_slots (e : Bool) :
    ∀ (ps : List Player) (ss : List Slot) (x : Slot × Player × Player),
      x ∈ pair_into_slots e ps ss →
        x.1.isOccupied = true ∧ x.1.player1.isSome ∧ x.1.player2.isSome ∧
          x.1.startTime ∈ ss.map Slot.startTime
  | [], _, x, hx => by simp [pair_into_slots] at hx
  | [p], _, x, hx => by simp [pair_into_slots] at hx
  | p :: q :: rest, [], x, hx => by simp [pair_into_slots] at hx
  | p :: q :: rest, s :: ss, x, hx => by
    rw [pair_into_slots, List.mem_cons] at hx
    rcases hx with rfl | hx
    · simp
    · have h := mem_pair_into_slots e rest ss x hx
      refine ⟨h.1, h.2.1, h.2.2.1, ?_⟩
      simp only [List.map_cons, List.mem_cons]
      exact Or.inr h.2.2.2

theorem flatten_pair_into_slots (e : Bool) :
    ∀ (ps : List Player) (ss : List Slot),
      ((pair_into_slots e ps ss).map (fun x => [x.2.1, x.2.2])).flatten =
        ps.take (2 * (pair_into_slots e ps ss).length)
  | [], ss => by simp [pair_into_slots]
  | [p], ss => by simp [pair_into_slots]
  | p :: q :: rest, [] => by simp [pair_into_slots]
  | p :: q :: rest, s :: ss => by
    unfold pair_into_slots
    simp only [List.map_cons, List.flatten_cons, List.length_cons,
      flatten_pair_into_slots e rest ss]
    rw [Nat.mul_add, Nat.mul_one]
    rfl

theorem mem_schedule_matches (users : List Player) (slots : List Slot) (e : Bool)
    (x : Slot × Player × Player) (hx : x ∈ (schedule_matches users slots e).1) :
    x.1.isOccupied = true ∧ x.1.player1.isSome ∧ x.1.player2.isSome ∧
      x.1.startTime ∈ (round_slots slots).map Slot.startTime := by
  unfold schedule_matches at hx
  by_cases hu : users.isEmpty
  · simp [hu] at hx
  · by_cases hs : slots.isEmpty
    · simp [hu, hs] at hx
    · simp only [if_neg hu, if_neg hs] at hx
      exact mem_pair_into_slots e _ _ x hx

/-- C9: schedule_matches fills only the earliest-round slots, two sorted
players per slot, until players or slots run out; with 5 eligible players and
3 earliest-round slots it schedules exactly 2 matches, leaving 1 player
unpaired. -/
theorem schedule_matches_pairing (users : List Player) (slots : List Slot)
    (e : Bool) (x : Slot × Player × Player)
    (hx : x ∈ (schedule_matches users slots e).1) :
    (schedule_matches users slots e).2 =
      min (users.length / 2) (round_slots slots).length
    ∧ (∀ s ∈ round_slots slots, first_slot_time slots = some s.startTime)
    ∧ x.1.startTime ∈ (round_slots slots).map Slot.startTime
    ∧ ((schedule_matches users slots e).1.map (fun y => [y.2.1, y.2.2])).flatten
        = (sortLe playerLe users).take (2 * (schedule_matches users slots e).2)
    ∧ (sortLe playerLe users).Pairwise (fun u v => playerLe u v = true)
    ∧ (schedule_matches exFiveUsers exThreeSlots false).2 = 2
    ∧ exFiveUsers.length - 2 * (schedule_matches exFiveUsers exThreeSlots false).2 = 1 := by
  refine ⟨?_, ?_, (mem_schedule_matches users slots e x hx).2.2.2, ?_,
    pairwise_sortLe playerLe_trans playerLe_total users, by decide, by decide⟩
  · unfold schedule_matches
    by_cases hu : users.isEmpty
    · rw [List.isEmpty_iff] at hu
      simp [hu]
    · by_cases hs : slots.isEmpty
      · rw [List.isEmpty_iff] at hs
        simp [hs, round_slots, first_slot_time, hu]
      · simp only [if_neg hu, if_neg hs]
        rw [length_pair_into_slots, length_sortLe]
  · intro s hs
    unfold round_slots at hs
    cases hft : first_slot_time slots with
    | none => rw [hft] at hs; simp at hs
    | some m =>
      rw [hft] at hs
      rcases List.mem_filter.1 hs with ⟨_, hsm⟩
      rw [show s.startTime = m from of_decide_eq_true hsm]
  · unfold schedule_matches
    by_cases hu : users.isEmpty
    · rw [List.isEmpty_iff] at hu
      simp [hu, sortLe]
    · by_cases hs : slots.isEmpty
      · simp [if_neg hu, hs]
      · simp only [if_neg hu, if_neg hs]
        exact flatten_pair_into_slots e _ _

/-- C9 witness: the general pairing facts instantiated on the concrete
5-player, 3-slot round. -/
theorem schedule_matches_pairing_witness :
    ((schedule_matches exFiveUsers exThreeSlots false).1.headD
        (exEmptySlot 0 0, exPlayerOf 0, exPlayerOf 0)) ∈
      (schedule_matches exFiveUsers exThreeSlots false).1
    ∧ (schedule_matches exFiveUsers exThreeSlots false).2 =
        min (exFiveUsers.length / 2) (round_slots exThreeSlots).length :=
  ⟨by decide,
    (schedule_matches_pairing exFiveUsers exThreeSlots false
      ((schedule_matches exFiveUsers exThreeSlots false).1.headD
        (exEmptySlot 0 0, exPlayerOf 0, exPlayerOf 0)) (by decide)).1⟩

/-- C1 counterexample: the no-show handler clears is_occupied but leaves both
player references set, so after it runs on a scheduled occupied slot the
claimed equivalence is false. -/
theorem no_show_breaks_occupancy_iff :
    exSlot.status = .scheduled
    ∧ (handle_no_show exSlot []).1.isOccupied = false
    ∧ (handle_no_show exSlot []).1.player1.isSome
    ∧ (handle_no_show exSlot []).1.player2.isSome
    ∧ ¬ occupied_iff_players (handle_no_show exSlot []).1 := by
  refine ⟨by decide, by decide, by decide, by decide, by decide⟩

/-- C1 amended: the occupancy equivalence holds after schedule_matches pairs
a slot and after handle_cancellation cancels one; the no-show handler only
clears is_occupied (when the slot was not already CANCELED or COMPLETED) and
leaves the player references untouched, so the equivalence can fail there. -/
theorem occupancy_at_observable_points (users : List Player) (slots : List Slot)
    (e : Bool) (x : Slot × Player × Player)
    (hx : x ∈ (schedule_matches users slots e).1)
    (slot : Slot) (uid : Nat) (missing : List Player) :
    occupied_iff_players x.1
    ∧ (∀ s', (handle_cancellation slot uid).slot = some s' → occupied_iff_players s')
    ∧ (handle_no_show slot missing).1.player1 = slot.player1
    ∧ (handle_no_show slot missing).1.player2 = slot.player2
    ∧ (slot.status ≠ .canceled → slot.status ≠ .completed →
        (handle_no_show slot missing).1.isOccupied = false) := by
  have hm := mem_schedule_matches users slots e x hx
  refine ⟨?_, ?_, ?_, ?_, ?_⟩
  · exact ⟨fun _ => ⟨hm.2.1, hm.2.2.1⟩, fun _ => hm.1⟩
  · intro s' h
    cases h
    simp [occupied_iff_players]
  · unfold handle_no_show
    by_cases h : slot.status ≠ .canceled ∧ slot.status ≠ .completed <;> simp [h]
  · unfold handle_no_show
    by_cases h : slot.status ≠ .canceled ∧ slot.status ≠ .completed <;> simp [h]
  · intro hc hd
    unfold handle_no_show
    simp [hc, hd]

/-- C1 witness: the amended occupancy facts at the concrete round and slot. -/
theorem occupancy_at_observable_points_witness :
    ((schedule_matches exFiveUsers exThreeSlots false).1.headD
        (exEmptySlot 0 0, exPlayerOf 0, exPlayerOf 0)) ∈
      (schedule_matches exFiveUsers exThreeSlots false).1
    ∧ occupied_iff_players
        ((schedule_matches exFiveUsers exThreeSlots false).1.headD
          (exEmptySlot 0 0, exPlayerOf 0, exPlayerOf 0)).1 :=
  ⟨by decide,
    (occupancy_at_observable_points exFiveUsers exThreeSlots false
      ((schedule_matches exFiveUsers exThreeSlots false).1.headD
        (exEmptySlot 0 0, exPlayerOf 0, exPlayerOf 0)) (by decide)
      exSlot 1 []).1⟩

/-- C5 counterexample: a no-show on an elimination-mode slot only increments
the missing player's decline count; their eliminated flag stays false. -/
theorem no_show_does_not_eliminate :
    exSlot.elimination = true
    ∧ (handle_no_show exSlot [playerA]).2 = [{ playerA with declinesCount := 1 }]
    ∧ ({ playerA with declinesCount := 1 } : Player).eliminated = false := by
  refine ⟨by decide, by decide, by decide⟩

/-- C5 amended: in elimination mode a decline or timeout eliminates exactly
the canceling player, never the opponent; without elimination mode nobody is
eliminated; a no-show increments the missing players' decline counts and
never changes any eliminated flag. -/
theorem decline_eliminates_only_decliner (slot : Slot) (p q : Player)
    (h1 : slot.player1 = some p) (h2 : slot.player2 = some q) (hne : p.id ≠ q.id)
    (missing : List Player) :
    (slot.elimination = true →
       (handle_cancellation slot p.id).p1 = some { p with eliminated := true }
       ∧ (handle_cancellation slot p.id).p2 = some q
       ∧ (handle_cancellation slot q.id).p1 = some p
       ∧ (handle_cancellation slot q.id).p2 = some { q with eliminated := true })
    ∧ (slot.elimination = false →
       (handle_cancellation slot p.id).p1 = some p
       ∧ (handle_cancellation slot p.id).p2 = some q
       ∧ (handle_cancellation slot q.id).p1 = some p
       ∧ (handle_cancellation slot q.id).p2 = some q)
    ∧ (handle_no_show slot missing).2.map Player.eliminated =
        missing.map Player.eliminated
    ∧ (handle_no_show slot missing).2.map Player.declinesCount =
        missing.map (fun u => u.declinesCount + 1) := by
  have hpq : (p.id == q.id) = false := by
    simp [hne]
  have hqq : (q.id == q.id) = true := by simp
  have hpp : (p.id == p.id) = true := by simp
  refine ⟨?_, ?_, ?_, ?_⟩
  · intro he
    unfold handle_cancellation
    simp [h1, h2, hpp, hpq, he]
  · intro he
    unfold handle_cancellation
    simp [h1, h2, hpp, hpq, he]
  · show (missing.map _).map _ = _
    rw [List.map_map]
    rfl
  · show (missing.map _).map _ = _
    rw [List.map_map]
    rfl

/-- C5 witness: the amended elimination facts on the concrete slot with
players A and B. -/
theorem decline_eliminates_only_decliner_witness :
    (exSlot.player1 = some playerA ∧ exSlot.player2 = some playerB
      ∧ playerA.id ≠ playerB.id)
    ∧ (exSlot.elimination = true →
       (handle_cancellation exSlot playerA.id).p1 = some { playerA with eliminated := true }
       ∧ (handle_cancellation exSlot playerA.id).p2 = some playerB
       ∧ (handle_cancellation exSlot playerB.id).p1 = some playerA
       ∧ (handle_cancellation exSlot playerB.id).p2 = some { playerB with eliminated := true }) :=
  ⟨⟨by decide, by decide, by decide⟩,
    (decline_eliminates_only_decliner exSlot playerA playerB (by decide) (by decide)
      (by decide) []).1⟩

/-- C6 counterexample: a persistently failing judgment call is attempted 12
times, not the configured maximum of 3: each queue pass runs the full inner
retry loop, and the queue re-enqueues the request MAX_RETRIES more times. -/
theorem retry_attempt_count_counterexample :
    GIGACHAT_MAX_RETRIES = 3
    ∧ (process_request (fun _ => Except.error "boom")).1 = 12
    ∧ (12 : Nat) ≠ 3 := by
  refine ⟨rfl, by decide, by decide⟩

/-- C6 amended: one inner pass makes exactly MAX_RETRIES endpoint attempts
with backoff delay min(RETRY_DELAY * 2 ^ n + jitter, MAX_RETRY_DELAY); the
queue re-runs a failed request until its retry counter exceeds MAX_RETRIES,
so a persistently failing request is attempted MAX_RETRIES * (MAX_RETRIES + 1)
= 12 times before the caller receives the final error, while a successful
call is attempted once. -/
theorem giga_retry_behavior (e r : String) (n : Nat) (j : ℚ) :
    make_gigachat_request_with_retry (fun _ => Except.error e) 0 =
      (GIGACHAT_MAX_RETRIES, Except.error e)
    ∧ process_request (fun _ => Except.error e) =
        (GIGACHAT_MAX_RETRIES * (GIGACHAT_MAX_RETRIES + 1), Except.error e)
    ∧ process_request (fun _ => Except.ok r) = (1, Except.ok r)
    ∧ get_retry_delay n j =
        min (GIGACHAT_RETRY_DELAY * 2 ^ n + j) GIGACHAT_MAX_RETRY_DELAY
    ∧ get_retry_delay n j ≤ GIGACHAT_MAX_RETRY_DELAY := by
  refine ⟨rfl, rfl, rfl, rfl, min_le_right _ _⟩

/-- Fixtures for the case-dispatch claim: the slot as loaded when the
delivery task was armed, and the same slot as it stands at fire time after an
intervening cancellation. -/
def exConfirmedSlot : Slot := { exSlot with status := .confirmed }

def exCanceledAtFire : Slot := { exConfirmedSlot with status := .canceled }

/-- C7 counterexample: _deliver sends the material from the snapshot loaded
when the task was armed even though the slot is CANCELED at fire time, where
the claimed fresh-load rule would skip. -/
theorem deliver_ignores_fire_time_state :
    exCanceledAtFire.status = .canceled
    ∧ case_dispatch_deliver (some exConfirmedSlot) (some exCanceledAtFire) =
        some exConfirmedSlot
    ∧ case_dispatch_deliver_spec (some exConfirmedSlot) (some exCanceledAtFire) =
        none := by
  refine ⟨rfl, rfl, rfl⟩

/-- C7 amended: CaseDispatchService._deliver loads the slot once when armed
and delivers unconditionally after the lead-time sleep (skipping only when no
slot existed at arm time); the fresh-load-at-fire-time check lives in the ad
hoc path send_case_before_match, which reloads and silently skips unless the
slot still exists with status CONFIRMED and a non-empty personalized case. -/
theorem case_dispatch_fire_behavior (a f f' : Option Slot) (s : Slot) :
    case_dispatch_deliver a f = case_dispatch_deliver a f'
    ∧ case_dispatch_deliver none f = none
    ∧ case_dispatch_deliver (some s) f = some s
    ∧ send_case_before_match none = false
    ∧ send_case_before_match (some { s with status := .canceled }) = false
    ∧ send_case_before_match (some { s with status := .confirmed }) =
        strTruthy s.personalyzedCase := by
  refine ⟨?_, rfl, rfl, rfl, ?_, ?_⟩
  · cases a <;> rfl
  · simp [send_case_before_match]
  · simp [send_case_before_match]

theorem fetch_snapshot_ok (slot : Slot) (names : List String) :
    (fetch_snapshot slot (Except.ok names)).isOk = true := by
  unfold fetch_snapshot
  cases h : slot_room_id slot <;> simp [h, Except.isOk, Except.toBool]

theorem monitor_all_ok (slot : Slot) :
    ∀ (polls : List PollResult) (fp : PollResult),
      (∀ p ∈ polls, p.isOk = true) → fp.isOk = true →
      (monitor_polls slot polls fp).isOk = true
  | [], fp, _, hfp => by
    cases fp with
    | error e => simp [Except.isOk, Except.toBool] at hfp
    | ok names =>
      unfold monitor_polls
      rcases hsnap : fetch_snapshot slot (Except.ok names) with e | snap
      · have := fetch_snapshot_ok slot names
        rw [hsnap] at this
        simp [Except.isOk, Except.toBool] at this
      · simp [Except.isOk, Except.toBool]
  | p :: rest, fp, hall, hfp => by
    cases p with
    | error e =>
      have := hall _ (List.mem_cons_self _ _)
      simp [Except.isOk, Except.toBool] at this
    | ok names =>
      unfold monitor_polls
      rcases hsnap : fetch_snapshot slot (Except.ok names) with e | snap
      · have := fetch_snapshot_ok slot names
        rw [hsnap] at this
        simp [Except.isOk, Except.toBool] at this
      · by_cases hb : both_present slot snap = true
        · simp [hb, Except.isOk, Except.toBool]
        · show (if both_present slot snap = true then Except.ok AttendanceDecision.present
            else monitor_polls slot rest fp).isOk = true
          rw [if_neg hb]
          exact monitor_all_ok slot rest fp
            (fun q hq => hall q (List.mem_cons_of_mem _ hq)) hfp

/-- C8 counterexample: with a usable room id, a provider error on the first
poll propagates out of the monitor instead of counting as an all-absent poll,
so no PRESENT/NO_SHOW decision is reached. -/
theorem provider_error_aborts_watch :
    slot_room_id exSlot = some "77"
    ∧ monitor_polls exSlot [Except.error ()] (Except.ok []) = Except.error () := by
  refine ⟨by decide, by decide⟩

/-- C8 amended: when the slot has a usable room id, an error raised by the
presence provider during a poll propagates and aborts the watch with no
decision; when every poll and the deadline snapshot succeed, the monitor
always reaches a PRESENT or NO_SHOW decision. -/
theorem monitor_poll_error_propagates (slot : Slot) (rest : List PollResult)
    (fp : PollResult) (hroom : (slot_room_id slot).isSome = true)
    (polls2 : List PollResult) (fp2 : PollResult)
    (hall : ∀ p ∈ polls2, p.isOk = true) (hfp : fp2.isOk = true) :
    monitor_polls slot (Except.error () :: rest) fp = Except.error ()
    ∧ (monitor_polls slot polls2 fp2).isOk = true := by
  refine ⟨?_, monitor_all_ok slot polls2 fp2 hall hfp⟩
  rcases Option.isSome_iff_exists.1 hroom with ⟨rid, hrid⟩
  unfold monitor_polls fetch_snapshot
  rw [hrid]

/-- C8 witness: the amended monitor behavior on the concrete slot. -/
theorem monitor_poll_error_propagates_witness :
    ((slot_room_id exSlot).isSome = true
      ∧ (∀ p ∈ ([Except.ok ["a"]] : List PollResult), p.isOk = true)
      ∧ (Except.ok [] : PollResult).isOk = true)
    ∧ monitor_polls exSlot [Except.error ()] (Except.ok []) = Except.error () :=
  ⟨⟨by decide, by decide, by decide⟩,
    (monitor_poll_error_propagates exSlot [] (Except.ok []) (by decide)
      [Except.ok ["a"]] (Except.ok []) (by decide) (by decide)).1⟩

end FAI
